import Mathlib

/-!
Shallow embedding of the A/B-factory decision engine
(`src/41_agents/ab_factory/decision_agent.py`): signal extraction,
the priority-ordered decision chain, and the confidence scorer.

Python floats are modelled as rationals (the final logistic squash, which
uses `math.exp`, is modelled over the reals).  A CSV cell value is modelled
as the result of the numeric parse `_sf(row.get(key, ""))`: `none` stands
for "key absent or value unparsable", `some q` for a parsed number.
-/

namespace ABFactory

/-- One CSV data row.  `segment` and `variant` model `row.get("segment")` /
`row.get("variant")` (`none` = column absent); `cells` is an association
list whose lookup models `_sf(row.get(key, ""))` for the numeric columns. -/
structure Row where
  segment : Option String
  variant : Option String
  cells : List (String × Option ℚ)
deriving Repr, DecidableEq

/-- `Row.cell r k` models `_sf(r.get(k, ""))`: `none` when the key is
absent or its value does not parse as a float. -/
def Row.cell (r : Row) (k : String) : Option ℚ :=
  (r.cells.lookup k).join

/-- One contract-declared guardrail (`contract["guardrails"][i]`).  Optional
fields model `g.get(...)`. -/
structure ContractGuardrail where
  name : String
  direction : Option String
  max_drop_relative : Option ℚ
  max_rise_relative : Option ℚ
deriving Repr, DecidableEq

/-- The contract fields the engine reads.  Each `Option` field models a
`dict.get` that may be absent. -/
structure Contract where
  pm_name : Option String
  stats_alpha : Option ℚ
  guardrails : List ContractGuardrail
  segments : List String
  notes : String
  practical_threshold_relative : Option ℚ
deriving Repr, DecidableEq

/-- One policy guardrail (`policy["guardrails"][i]`). -/
structure PolicyGuardrail where
  metric : String
  threshold_pct : Option ℚ
  severity : Option String
deriving Repr, DecidableEq

/-- The policy fields the engine reads.  `Option` models absent keys; the
code applies its own defaults at each read site, which the embedding
reproduces with `getD` at the same sites. -/
structure Policy where
  pm_name : Option String
  practical_threshold_pct : Option ℚ
  alpha : Option ℚ
  require_significance_for_ship : Option Bool
  allow_investigate_if_not_significant : Option Bool
  guardrails : List PolicyGuardrail
  segments_enabled : Option Bool
  min_abs_pct_gap_for_conflict : Option ℚ
  conflict_action : Option String
  long_term_enabled : Option Bool
  reversal_action : Option String
  confidence_base : Option ℚ
  confidence_weights : List (String × ℚ)
deriving Repr, DecidableEq

/-- The signal set returned by `_extract_signals`.  `guardrails` is the
`guardrail_deltas` dict as an insertion-ordered association list (duplicate
keys carry equal values, so first-match lookup agrees with the dict). -/
structure SignalSet where
  primary_metric : String
  primary_uplift_pct : Option ℚ
  effect_relative : Option ℚ
  p_value : Option ℚ
  is_significant : Bool
  alpha : ℚ
  guardrails : List (String × Option ℚ)
  guardrail_hard_violated : Bool
  guardrail_soft_violated : Bool
  hard_violations : List String
  soft_violations : List String
  segment_conflict : Bool
  long_term_reversal : Bool
  has_segment_data : Bool
  has_long_term_data : Bool
deriving Repr, DecidableEq

/-- `REVERSAL_KEYWORDS` from the source. -/
def REVERSAL_KEYWORDS : List String := ["reversal", "revers", "trend change"]

/-- `matchesAt s pat`: `pat` occurs at the start of `s` (character lists). -/
def matchesAt : List Char → List Char → Bool
  | _, [] => true
  | [], _ :: _ => false
  | c :: cs, d :: ds => c == d && matchesAt cs ds

/-- `containsChars s pat`: `pat` occurs contiguously somewhere in `s`
(character lists); models Python's `pat in s` on strings. -/
def containsChars : List Char → List Char → Bool
  | [], pat => pat.isEmpty
  | s@(_ :: t), pat => matchesAt s pat || containsChars t pat

/-- Python's substring test `pat in s`. -/
def strContains (s pat : String) : Bool :=
  containsChars s.data pat.data

/-- `s.lower()`: character-wise case folding (ASCII-faithful, like
`Char.toLower`). -/
def lowerStr (s : String) : String :=
  ⟨s.data.map Char.toLower⟩

/-- Primary metric name resolution:
`contract["primary_metric"].get("name", policy["primary_metric"].get("name", "revenue"))`. -/
def pmName (contract : Contract) (policy : Policy) : String :=
  contract.pm_name.getD (policy.pm_name.getD "revenue")

/-- Alpha resolution: contract `stats.alpha` if present, else policy
`significance.alpha`, else `0.05`. -/
def alphaOf (contract : Contract) (policy : Policy) : ℚ :=
  contract.stats_alpha.getD (policy.alpha.getD (5 / 100))

/-- `test_all`: rows with `variant != "control"` and `segment == "all"`.
A missing variant column compares unequal to `"control"`, as in Python. -/
def testAll (rows : List Row) : List Row :=
  rows.filter (fun r => r.variant != some "control" && r.segment == some "all")

/-- `control_all`: rows with `variant == "control"` and `segment == "all"`. -/
def controlAll (rows : List Row) : List Row :=
  rows.filter (fun r => r.variant == some "control" && r.segment == some "all")

/-- `_sf(rs[0].get(k, "")) if rs else None`. -/
def firstCell (rs : List Row) (k : String) : Option ℚ :=
  match rs.head? with
  | some r => r.cell k
  | none => none

/-- The guardrail delta derivation shared by the policy and contract
guardrail loops: prefer the precomputed `{metric}_effect_relative` column on
the first test row; otherwise derive `(test - control) / control` from the
raw values when both parse and control is nonzero, else `none`.  (When
either row list is empty, `firstCell` is already `none`, matching the
`control_all and test_all` guard of the source.) -/
def guardEff (test_all control_all : List Row) (metric : String) : Option ℚ :=
  match firstCell test_all (metric ++ "_effect_relative") with
  | some e => some e
  | none =>
    match firstCell control_all metric, firstCell test_all metric with
    | some cv, some tv => if cv ≠ 0 then some ((tv - cv) / cv) else none
    | _, _ => none

/-- Deltas recorded by the policy-guardrail loop, in iteration order. -/
def policyDeltas (test_all control_all : List Row) (policy : Policy) :
    List (String × Option ℚ) :=
  policy.guardrails.map
    (fun pg => (pg.metric, (guardEff test_all control_all pg.metric).map (· * 100)))

/-- Hard-violation codes appended by the policy-guardrail loop: the delta is
present, at or below the threshold (`pg.get("threshold_pct", 0)`), and the
severity (`pg.get("severity", "hard")`) is `"hard"`. -/
def policyHardViolations (test_all control_all : List Row) (policy : Policy) :
    List String :=
  policy.guardrails.filterMap (fun pg =>
    match (guardEff test_all control_all pg.metric).map (· * 100) with
    | some d =>
      if d ≤ pg.threshold_pct.getD 0 then
        if pg.severity.getD "hard" == "hard" then
          some ("guardrail_violation:" ++ pg.metric)
        else none
      else none
    | none => none)

/-- Soft-violation codes appended by the policy-guardrail loop. -/
def policySoftViolations (test_all control_all : List Row) (policy : Policy) :
    List String :=
  policy.guardrails.filterMap (fun pg =>
    match (guardEff test_all control_all pg.metric).map (· * 100) with
    | some d =>
      if d ≤ pg.threshold_pct.getD 0 then
        if pg.severity.getD "hard" == "hard" then none
        else some ("guardrail_soft_violation:" ++ pg.metric)
      else none
    | none => none)

/-- Contract guardrails not already covered by a policy guardrail metric
(the `if gname in policy_guard_metrics: continue` filter). -/
def contractExtraGuardrails (contract : Contract) (policy : Policy) :
    List ContractGuardrail :=
  contract.guardrails.filter
    (fun g => !(policy.guardrails.map (·.metric)).contains g.name)

/-- The directional violation rule for a contract guardrail with a computed
effect `eff`: for direction `up`/`neutral` a drop beyond `max_drop_relative`,
for direction `down` a rise beyond `max_rise_relative` (direction defaults
to `"up"`). -/
def contractGuardViolated (g : ContractGuardrail) (eff : ℚ) : Bool :=
  let direction := g.direction.getD "up"
  ((direction == "up" || direction == "neutral") &&
    (match g.max_drop_relative with
     | some md => decide (eff < 0) && decide (|eff| > md)
     | none => false)) ||
  ((direction == "down") &&
    (match g.max_rise_relative with
     | some mr => decide (eff > 0) && decide (eff > mr)
     | none => false))

/-- Deltas recorded by the contract-guardrail loop, in iteration order. -/
def contractDeltas (test_all control_all : List Row) (contract : Contract)
    (policy : Policy) : List (String × Option ℚ) :=
  (contractExtraGuardrails contract policy).map
    (fun g => (g.name, (guardEff test_all control_all g.name).map (· * 100)))

/-- Hard-violation codes appended by the contract-guardrail loop (contract
guardrail violations are always recorded as hard). -/
def contractHardViolations (test_all control_all : List Row)
    (contract : Contract) (policy : Policy) : List String :=
  (contractExtraGuardrails contract policy).filterMap (fun g =>
    match guardEff test_all control_all g.name with
    | some eff =>
      if contractGuardViolated g eff then
        some ("guardrail_violation:" ++ g.name)
      else none
    | none => none)

/-- The `(seg, eff * 100, pv)` triples collected per declared segment from
the first non-control row of that segment, kept only when both the effect
and the p-value parse. -/
def segUplifts (contract : Contract) (rows : List Row)
    (effect_col pval_col : String) : List (String × ℚ × ℚ) :=
  contract.segments.filterMap (fun seg =>
    match (rows.filter
        (fun r => r.segment == some seg && r.variant != some "control")).head? with
    | none => none
    | some r =>
      match r.cell effect_col, r.cell pval_col with
      | some eff, some pv => some (seg, eff * 100, pv)
      | _, _ => none)

/-- `max` of a nonempty list given as head and tail (Python `max(vals)`). -/
def maxOf (v : ℚ) : List ℚ → ℚ
  | [] => v
  | w :: ws => maxOf (max v w) ws

/-- `min` of a nonempty list given as head and tail (Python `min(vals)`). -/
def minOf (v : ℚ) : List ℚ → ℚ
  | [] => v
  | w :: ws => minOf (min v w) ws

/-- `max(vals) - min(vals)` for the per-segment uplift values (`0` in the
unreachable empty case). -/
def gapOf (vals : List ℚ) : ℚ :=
  match vals with
  | [] => 0
  | v :: vs => maxOf v vs - minOf v vs

/-- The segment-conflict flag: with at least two declared segments and
policy segment checking enabled (`.get("enabled", True)`), at least two
usable per-segment uplifts whose spread reaches
`min_abs_pct_gap_for_conflict` (default `2.0`), with a significant positive
and a significant negative segment effect (strict `p < alpha`). -/
def segmentConflictFlag (contract : Contract) (rows : List Row)
    (policy : Policy) (alpha : ℚ) (effect_col pval_col : String) : Bool :=
  if 2 ≤ contract.segments.length && policy.segments_enabled.getD true then
    let min_gap := policy.min_abs_pct_gap_for_conflict.getD 2
    let su := segUplifts contract rows effect_col pval_col
    if 2 ≤ su.length then
      decide (min_gap ≤ gapOf (su.map (fun t => t.2.1))) &&
      su.any (fun t => decide (0 < t.2.1) && decide (t.2.2 < alpha)) &&
      su.any (fun t => decide (t.2.1 < 0) && decide (t.2.2 < alpha))
    else false
  else false

/-- The long-term-reversal flag: policy `long_term.enabled`
(`.get("enabled", True)`) and some reversal keyword occurs in the
lower-cased contract notes. -/
def longTermFlag (contract : Contract) (policy : Policy) : Bool :=
  policy.long_term_enabled.getD true &&
  REVERSAL_KEYWORDS.any (fun kw => strContains (lowerStr contract.notes) kw)

/-- `_extract_signals(contract, rows, policy)`. -/
def extractSignals (contract : Contract) (rows : List Row) (policy : Policy) :
    SignalSet :=
  let pm_name := pmName contract policy
  let effect_col := pm_name ++ "_effect_relative"
  let pval_col := pm_name ++ "_p_value"
  let test_all := testAll rows
  let control_all := controlAll rows
  let effect_rel := firstCell test_all effect_col
  let pval := firstCell test_all pval_col
  let uplift_pct := effect_rel.map (· * 100)
  let alpha := alphaOf contract policy
  let is_sig :=
    match pval with
    | some pv => decide (pv ≤ alpha)
    | none => false
  let hard := policyHardViolations test_all control_all policy ++
    contractHardViolations test_all control_all contract policy
  let soft := policySoftViolations test_all control_all policy
  { primary_metric := pm_name
    primary_uplift_pct := uplift_pct
    effect_relative := effect_rel
    p_value := pval
    is_significant := is_sig
    alpha := alpha
    guardrails := policyDeltas test_all control_all policy ++
      contractDeltas test_all control_all contract policy
    guardrail_hard_violated := !hard.isEmpty
    guardrail_soft_violated := !soft.isEmpty
    hard_violations := hard
    soft_violations := soft
    segment_conflict :=
      segmentConflictFlag contract rows policy alpha effect_col pval_col
    long_term_reversal := longTermFlag contract policy
    has_segment_data := 2 ≤ contract.segments.length
    has_long_term_data := longTermFlag contract policy }

/-- The effective practical threshold of `_make_decision`:
`max(contract_practical_rel * 100, policy_practical_pct)` when the contract
supplies an override, else the policy default (`0.5`). -/
def effectivePractical (contract : Contract) (policy : Policy) : ℚ :=
  let policy_practical_pct := policy.practical_threshold_pct.getD (1 / 2)
  match contract.practical_threshold_relative with
  | some r => max (r * 100) policy_practical_pct
  | none => policy_practical_pct

/-- `uplift_pct is not None and abs(uplift_pct) >= practical_pct`. -/
def abovePractical (uplift_pct : Option ℚ) (practical_pct : ℚ) : Bool :=
  match uplift_pct with
  | some u => decide (practical_pct ≤ |u|)
  | none => false

/-- `_make_decision(signals, contract, policy)`: the six-step priority
chain, first match wins; returns `(decision, reasons)`. -/
def makeDecision (signals : SignalSet) (contract : Contract)
    (policy : Policy) : String × List String :=
  let practical_pct := effectivePractical contract policy
  let above_practical := abovePractical signals.primary_uplift_pct practical_pct
  if signals.guardrail_hard_violated then
    ("do_not_ship",
      if signals.is_significant && above_practical then
        "primary_uplift" :: signals.hard_violations
      else signals.hard_violations)
  else if signals.long_term_reversal then
    (policy.reversal_action.getD "do_not_ship",
      if signals.is_significant then ["long_term_reversal"]
      else ["long_term_reversal", "not_significant"])
  else if signals.segment_conflict then
    (policy.conflict_action.getD "investigate",
      if signals.is_significant then ["segment_conflict"]
      else ["segment_conflict", "not_significant"])
  else if signals.is_significant && !above_practical then
    ("do_not_ship", ["practically_small"])
  else if policy.require_significance_for_ship.getD true &&
      !signals.is_significant then
    (if policy.allow_investigate_if_not_significant.getD true then
      "investigate" else "do_not_ship", ["not_significant"])
  else if signals.is_significant && above_practical then
    ("ship", ["primary_uplift"])
  else
    ("investigate", ["insufficient_evidence"])

/-- `weights.get(name, 0.0)` from `policy.confidence_model.weights`. -/
def weightOf (policy : Policy) (name : String) : ℚ :=
  (policy.confidence_weights.lookup name).getD 0

/-- The `missing` list of `_compute_confidence`, in append order: null
uplift, null p-value, each policy guardrail whose recorded delta is null
(dict `get` on the signal deltas), segments when
`policy["segments"].get("enabled")` is truthy but `has_segment_data` is
falsy, long-term when `policy["long_term"].get("enabled")` is truthy but
`has_long_term_data` is falsy.  Note both `enabled` reads here default to
`None` (falsy), unlike the extraction-side reads which default to `True`. -/
def missingEvidence (signals : SignalSet) (policy : Policy) : List String :=
  (if signals.primary_uplift_pct = none then ["primary_uplift_pct"] else []) ++
  (if signals.p_value = none then ["p_value"] else []) ++
  policy.guardrails.filterMap (fun pg =>
    if (signals.guardrails.lookup pg.metric).join = none then
      some ("guardrail:" ++ pg.metric)
    else none) ++
  (if policy.segments_enabled.getD false && !signals.has_segment_data then
    ["segments"] else []) ++
  (if policy.long_term_enabled.getD false && !signals.has_long_term_data then
    ["long_term"] else [])

/-- `uplift is not None and abs(uplift) >= policy_practical`: the guard of
the `primary_uplift_strong` factor. -/
def upliftStrong (signals : SignalSet) (policy : Policy) : Bool :=
  match signals.primary_uplift_pct with
  | some u => decide (policy.practical_threshold_pct.getD (1 / 2) ≤ |u|)
  | none => false

/-- `uplift is not None and abs(uplift) < policy_practical`: the guard of
the `primary_uplift_small` factor. -/
def upliftSmall (signals : SignalSet) (policy : Policy) : Bool :=
  match signals.primary_uplift_pct with
  | some u => decide (|u| < policy.practical_threshold_pct.getD (1 / 2))
  | none => false

/-- `pval is None or pval > alpha`: the guard of the `not_significant`
factor (alpha here is always the policy default, `0.05` if absent). -/
def notSigFired (signals : SignalSet) (policy : Policy) : Bool :=
  match signals.p_value with
  | some pv => decide (policy.alpha.getD (5 / 100) < pv)
  | none => true

/-- The names of the confidence factors fired by `_compute_confidence`, in
the order the `_add` calls run. -/
def firedFactors (signals : SignalSet) (policy : Policy) : List String :=
  (if upliftStrong signals policy then ["primary_uplift_strong"] else []) ++
  (if upliftSmall signals policy then ["primary_uplift_small"] else []) ++
  (if notSigFired signals policy then ["not_significant"] else []) ++
  (if signals.guardrail_hard_violated then ["guardrail_hard_violation"] else []) ++
  (if signals.guardrail_soft_violated then ["guardrail_soft_violation"] else []) ++
  (if signals.segment_conflict then ["segment_conflict"] else []) ++
  (if signals.long_term_reversal then ["long_term_reversal"] else []) ++
  (if (missingEvidence signals policy).isEmpty then []
   else ["evidence_sparse"])

/-- The `factors` entries of the confidence explanation: each fired factor
with its weight. -/
def confFactors (signals : SignalSet) (policy : Policy) :
    List (String × ℚ) :=
  (firedFactors signals policy).map (fun n => (n, weightOf policy n))

/-- The accumulated pre-squash linear score: `confidence_model.base` (default
`0.0`) plus the weights of all fired factors. -/
def confScore (signals : SignalSet) (policy : Policy) : ℚ :=
  policy.confidence_base.getD 0 +
    ((firedFactors signals policy).map (weightOf policy)).sum

/-- `_sigmoid`: the logistic function over the reals.  The source's
`OverflowError` branch returns the limits `0.0` / `1.0` of this function,
so the real-valued model absorbs it. -/
noncomputable def sigmoid (x : ℝ) : ℝ :=
  1 / (1 + Real.exp (-x))

/-- `round(raw, 4)` (up to tie-breaking, which the bounds are insensitive
to). -/
noncomputable def round4 (x : ℝ) : ℝ :=
  (round (x * 10000) : ℤ) / 10000

/-- The confidence value of `_compute_confidence`:
`max(0.01, min(0.99, round(_sigmoid(score), 4)))`. -/
noncomputable def confidence (signals : SignalSet) (policy : Policy) : ℝ :=
  max (1 / 100) (min (99 / 100) (round4 (sigmoid (confScore signals policy))))

/-! ### Concrete fixtures for witnesses and counterexamples -/

/-- A representative policy (mirrors the shape of `policy.json`). -/
def basePolicy : Policy :=
  { pm_name := some "revenue"
    practical_threshold_pct := some (1 / 2)
    alpha := some (5 / 100)
    require_significance_for_ship := some true
    allow_investigate_if_not_significant := some true
    guardrails := [{ metric := "ctr", threshold_pct := some (-3), severity := some "hard" }]
    segments_enabled := some true
    min_abs_pct_gap_for_conflict := some 2
    conflict_action := some "investigate"
    long_term_enabled := some true
    reversal_action := some "do_not_ship"
    confidence_base := some 0
    confidence_weights :=
      [("primary_uplift_strong", 2), ("primary_uplift_small", -1),
       ("not_significant", -2), ("guardrail_hard_violation", -2),
       ("guardrail_soft_violation", -1), ("segment_conflict", -1),
       ("long_term_reversal", -1), ("evidence_sparse", -1)] }

/-- A minimal contract naming the revenue metric. -/
def baseContract : Contract :=
  { pm_name := some "revenue", stats_alpha := some (5 / 100), guardrails := [],
    segments := [], notes := "", practical_threshold_relative := none }

/-- Signals with a hard guardrail violation and a significant,
practically-large uplift (spec example scenario 2). -/
def w1Signals : SignalSet :=
  { primary_metric := "revenue", primary_uplift_pct := some 2,
    effect_relative := some (2 / 100), p_value := some (1 / 100),
    is_significant := true, alpha := 5 / 100,
    guardrails := [("ctr", some (-4))], guardrail_hard_violated := true,
    guardrail_soft_violated := false,
    hard_violations := ["guardrail_violation:ctr"], soft_violations := [],
    segment_conflict := false, long_term_reversal := false,
    has_segment_data := false, has_long_term_data := false }

/-! ### Claim theorems -/

/-- C1: whenever a hard guardrail violation is flagged and the primary
uplift is significant and at or above the effective practical threshold,
the decision is `do_not_ship` and the reasons are `primary_uplift` followed
by all hard-violation codes; the guardrail step terminates the chain. -/
theorem C1_hard_guardrail_dominates (s : SignalSet) (c : Contract)
    (p : Policy) (hg : s.guardrail_hard_violated = true)
    (hs : s.is_significant = true)
    (u : ℚ) (hu : s.primary_uplift_pct = some u)
    (ha : effectivePractical c p ≤ |u|) :
    makeDecision s c p = ("do_not_ship", "primary_uplift" :: s.hard_violations) := by
  unfold makeDecision
  simp [hg, hs, abovePractical, hu, ha]

/-- Witness for C1 at the scenario-2 fixture. -/
theorem C1_hard_guardrail_dominates_witness :
    effectivePractical baseContract basePolicy ≤ |(2 : ℚ)| ∧
    makeDecision w1Signals baseContract basePolicy =
      ("do_not_ship", ["primary_uplift", "guardrail_violation:ctr"]) :=
  ⟨by norm_num [effectivePractical, baseContract, basePolicy],
   C1_hard_guardrail_dominates w1Signals baseContract basePolicy rfl rfl 2 rfl
     (by norm_num [effectivePractical, baseContract, basePolicy])⟩

/-- C2: for every signal set and policy the reported confidence lies in
`[0.01, 0.99]`: the squashed score is clamped to that interval. -/
theorem C2_confidence_bounds (s : SignalSet) (p : Policy) :
    1 / 100 ≤ confidence s p ∧ confidence s p ≤ 99 / 100 := by
  unfold confidence
  exact ⟨le_max_left _ _, max_le (by norm_num) (min_le_left _ _)⟩

/-- The effective practical threshold is monotone in the policy threshold. -/
theorem effectivePractical_mono (c : Contract) (p : Policy) (t1 t2 : ℚ)
    (h : t1 ≤ t2) :
    effectivePractical c { p with practical_threshold_pct := some t1 } ≤
      effectivePractical c { p with practical_threshold_pct := some t2 } := by
  unfold effectivePractical
  cases c.practical_threshold_relative with
  | none => simpa using h
  | some r => exact max_le_max le_rfl (by simpa using h)

/-- `abovePractical` is antitone in the threshold. -/
theorem abovePractical_mono (u : Option ℚ) (a b : ℚ) (hab : a ≤ b)
    (h : abovePractical u b = true) : abovePractical u a = true := by
  cases u with
  | none => exact h
  | some v =>
    simp only [abovePractical, decide_eq_true_eq] at h ⊢
    exact le_trans hab h

/-- C3: with all other inputs fixed, if the decision under the larger policy
practical threshold is `ship`, the decision under the smaller one is also
`ship` — raising `practical_threshold_pct` never creates a `ship`. -/
theorem C3_practical_threshold_monotone (s : SignalSet) (c : Contract)
    (p : Policy) (t1 t2 : ℚ) (hlt : t1 < t2)
    (hship : (makeDecision s c
      { p with practical_threshold_pct := some t2 }).1 = "ship") :
    (makeDecision s c { p with practical_threshold_pct := some t1 }).1 = "ship" := by
  by_cases hg : s.guardrail_hard_violated = true
  · simp [makeDecision, hg] at hship
  · by_cases hr : s.long_term_reversal = true
    · simp only [makeDecision, hg, hr] at hship ⊢
      simpa using hship
    · by_cases hc : s.segment_conflict = true
      · simp only [makeDecision, hg, hr, hc] at hship ⊢
        simpa using hship
      · by_cases hsig : s.is_significant = true
        · by_cases ha2 : abovePractical s.primary_uplift_pct
            (effectivePractical c
              { p with practical_threshold_pct := some t2 }) = true
          · have ha1 : abovePractical s.primary_uplift_pct
                (effectivePractical c
                  { p with practical_threshold_pct := some t1 }) = true :=
              abovePractical_mono _ _ _ (effectivePractical_mono c p t1 t2 hlt.le) ha2
            simp [makeDecision, hg, hr, hc, hsig, ha1]
          · simp [makeDecision, hg, hr, hc, hsig, ha2] at hship
        · simp only [makeDecision, hg, hr, hc, hsig] at hship ⊢
          simp only [Bool.false_eq_true] at hship ⊢
          simpa using hship

/-- Signals for a clean significant, practically large uplift (spec example
scenario 1). -/
def w3Signals : SignalSet :=
  { primary_metric := "revenue", primary_uplift_pct := some (32 / 10),
    effect_relative := some (32 / 1000), p_value := some (1 / 100),
    is_significant := true, alpha := 5 / 100,
    guardrails := [("ctr", some 1)], guardrail_hard_violated := false,
    guardrail_soft_violated := false, hard_violations := [],
    soft_violations := [], segment_conflict := false,
    long_term_reversal := false, has_segment_data := false,
    has_long_term_data := false }

unseal Rat.mul Rat.add Rat.sub Rat.inv in
/-- Witness for C3: thresholds `1 < 2`, `ship` under `2`, hence under `1`. -/
theorem C3_practical_threshold_monotone_witness :
    (1 : ℚ) < 2 ∧
    (makeDecision w3Signals baseContract
      { basePolicy with practical_threshold_pct := some 1 }).1 = "ship" :=
  ⟨by norm_num,
   C3_practical_threshold_monotone w3Signals baseContract basePolicy 1 2
     (by norm_num) (by decide)⟩

/-- A contract carrying no primary-metric name. -/
def noNameContract : Contract :=
  { pm_name := none, stats_alpha := none, guardrails := [], segments := [],
    notes := "", practical_threshold_relative := none }

/-- A policy carrying no primary-metric name. -/
def noNamePolicy : Policy :=
  { basePolicy with pm_name := none }

/-- Data rows with full revenue evidence and a healthy ctr guardrail. -/
def revenueRows : List Row :=
  [ { segment := some "all", variant := some "control",
      cells := [("revenue", some 100), ("ctr", some 10)] },
    { segment := some "all", variant := some "test",
      cells := [("revenue", some 103),
                ("revenue_effect_relative", some (32 / 1000)),
                ("revenue_p_value", some (1 / 100)),
                ("ctr", some 10), ("ctr_effect_relative", some (1 / 100))] } ]

unseal Rat.mul Rat.add Rat.sub Rat.inv in
/-- C5 counterexample: with no primary-metric name in either the contract or
the policy the engine does not fail fast — signal extraction runs to
completion under the built-in default name `"revenue"` and the evaluator
produces a full verdict. -/
theorem C5_counterexample :
    noNameContract.pm_name = none ∧ noNamePolicy.pm_name = none ∧
    (extractSignals noNameContract revenueRows noNamePolicy).primary_metric
      = "revenue" ∧
    (extractSignals noNameContract revenueRows noNamePolicy).primary_uplift_pct
      = some (32 / 10) ∧
    (extractSignals noNameContract revenueRows noNamePolicy).p_value
      = some (1 / 100) ∧
    (extractSignals noNameContract revenueRows noNamePolicy).is_significant
      = true ∧
    makeDecision (extractSignals noNameContract revenueRows noNamePolicy)
      noNameContract noNamePolicy = ("ship", ["primary_uplift"]) := by
  decide

/-- C5 amended: when no primary metric name is resolvable from either the
contract or the policy, the extractor does not fail — it silently falls back
to the default metric name `"revenue"` and evaluation proceeds in full. -/
theorem C5_default_metric_name (c : Contract) (rows : List Row) (p : Policy)
    (hc : c.pm_name = none) (hp : p.pm_name = none) :
    (extractSignals c rows p).primary_metric = "revenue" := by
  simp [extractSignals, pmName, hc, hp]

/-- Witness for the amended C5. -/
theorem C5_default_metric_name_witness :
    (extractSignals noNameContract revenueRows noNamePolicy).primary_metric
      = "revenue" :=
  C5_default_metric_name noNameContract revenueRows noNamePolicy rfl rfl

/-- Unfolding equation: the recorded guardrail deltas. -/
theorem extractSignals_guardrails (c : Contract) (rows : List Row) (p : Policy) :
    (extractSignals c rows p).guardrails =
      policyDeltas (testAll rows) (controlAll rows) p ++
        contractDeltas (testAll rows) (controlAll rows) c p := rfl

/-- Unfolding equation: the hard-violation codes. -/
theorem extractSignals_hard_violations (c : Contract) (rows : List Row) (p : Policy) :
    (extractSignals c rows p).hard_violations =
      policyHardViolations (testAll rows) (controlAll rows) p ++
        contractHardViolations (testAll rows) (controlAll rows) c p := rfl

/-- Unfolding equation: the soft-violation codes. -/
theorem extractSignals_soft_violations (c : Contract) (rows : List Row) (p : Policy) :
    (extractSignals c rows p).soft_violations =
      policySoftViolations (testAll rows) (controlAll rows) p := rfl

/-- Unfolding equation: the hard-violation flag. -/
theorem extractSignals_hard_flag (c : Contract) (rows : List Row) (p : Policy) :
    (extractSignals c rows p).guardrail_hard_violated =
      !(policyHardViolations (testAll rows) (controlAll rows) p ++
        contractHardViolations (testAll rows) (controlAll rows) c p).isEmpty := rfl

/-- Left cancellation for string append. -/
theorem string_append_left_cancel (p a b : String) (h : p ++ a = p ++ b) :
    a = b := by
  have hd : p.data ++ a.data = p.data ++ b.data := by
    have h2 := congrArg String.data h
    simpa [String.data_append] using h2
  have h3 : a.data = b.data := List.append_cancel_left hd
  cases a
  cases b
  exact congrArg String.mk h3

/-- If the precomputed effect column is absent on the first test row and the
raw derivation is impossible (missing or zero control value, or missing test
value), the derived guardrail effect is null. -/
theorem guardEff_eq_none (t c : List Row) (m : String)
    (h1 : firstCell t (m ++ "_effect_relative") = none)
    (h2 : firstCell c m = none ∨ firstCell c m = some 0 ∨
      firstCell t m = none) :
    guardEff t c m = none := by
  unfold guardEff
  rw [h1]
  rcases h2 with h | h | h
  · rw [h]
  · rw [h]
    cases ht : firstCell t m <;> simp
  · rw [h]
    cases hc : firstCell c m <;> simp

/-- C6: a guardrail metric with no precomputed effect column and an
impossible raw derivation (zero or missing control, or missing test value)
gets a null recorded delta and is never counted as violated — in particular
the division never contributes a violation. -/
theorem C6_zero_denominator_null (c : Contract) (rows : List Row)
    (p : Policy) (m : String)
    (h1 : firstCell (testAll rows) (m ++ "_effect_relative") = none)
    (h2 : firstCell (controlAll rows) m = none ∨
      firstCell (controlAll rows) m = some 0 ∨
      firstCell (testAll rows) m = none) :
    (∀ d, (m, d) ∈ (extractSignals c rows p).guardrails → d = none) ∧
    "guardrail_violation:" ++ m ∉ (extractSignals c rows p).hard_violations ∧
    "guardrail_soft_violation:" ++ m ∉ (extractSignals c rows p).soft_violations := by
  have hge := guardEff_eq_none (testAll rows) (controlAll rows) m h1 h2
  refine ⟨?_, ?_, ?_⟩
  · intro d hd
    rw [extractSignals_guardrails] at hd
    rcases List.mem_append.mp hd with hd | hd
    · obtain ⟨pg, hpg, heq⟩ := List.mem_map.mp hd
      rw [Prod.mk.injEq] at heq
      obtain ⟨hm, hd2⟩ := heq
      rw [hm, hge] at hd2
      exact hd2.symm
    · obtain ⟨g, hg, heq⟩ := List.mem_map.mp hd
      rw [Prod.mk.injEq] at heq
      obtain ⟨hm, hd2⟩ := heq
      rw [hm, hge] at hd2
      exact hd2.symm
  · intro hmem
    rw [extractSignals_hard_violations] at hmem
    rcases List.mem_append.mp hmem with hmem | hmem
    · obtain ⟨pg, hpg, hf⟩ := List.mem_filterMap.mp hmem
      rcases hval : (guardEff (testAll rows) (controlAll rows) pg.metric).map
          (· * 100) with _ | dv
      · rw [hval] at hf
        simp at hf
      · rw [hval] at hf
        simp only [Option.ite_none_right_eq_some, Option.some.injEq] at hf
        have hm : pg.metric = m :=
          string_append_left_cancel "guardrail_violation:" _ _ hf.2.2
        rw [hm, hge] at hval
        simp at hval
    · obtain ⟨g, hg, hf⟩ := List.mem_filterMap.mp hmem
      rcases hval : guardEff (testAll rows) (controlAll rows) g.name
          with _ | e
      · rw [hval] at hf
        simp at hf
      · rw [hval] at hf
        simp only [Option.ite_none_right_eq_some, Option.some.injEq] at hf
        have hm : g.name = m :=
          string_append_left_cancel "guardrail_violation:" _ _ hf.2
        rw [hm, hge] at hval
        simp at hval
  · intro hmem
    rw [extractSignals_soft_violations] at hmem
    obtain ⟨pg, hpg, hf⟩ := List.mem_filterMap.mp hmem
    rcases hval : (guardEff (testAll rows) (controlAll rows) pg.metric).map
        (· * 100) with _ | dv
    · rw [hval] at hf
      simp at hf
    · rw [hval] at hf
      simp only [Option.ite_none_right_eq_some, Option.ite_none_left_eq_some,
        Option.some.injEq] at hf
      have hm : pg.metric = m :=
        string_append_left_cancel "guardrail_soft_violation:" _ _ hf.2.2
      rw [hm, hge] at hval
      simp at hval

/-- Rows where the ctr guardrail has no precomputed effect column and the
control ctr value is zero, so the raw derivation has a zero denominator. -/
def zeroCtrRows : List Row :=
  [ { segment := some "all", variant := some "control",
      cells := [("revenue", some 100), ("ctr", some 0)] },
    { segment := some "all", variant := some "test",
      cells := [("revenue", some 103),
                ("revenue_effect_relative", some (32 / 1000)),
                ("revenue_p_value", some (1 / 100)),
                ("ctr", some 5)] } ]

unseal Rat.mul Rat.add Rat.sub Rat.inv in
/-- Witness for C6 at the zero-denominator fixture. -/
theorem C6_zero_denominator_null_witness :
    "guardrail_violation:" ++ "ctr" ∉
      (extractSignals baseContract zeroCtrRows basePolicy).hard_violations ∧
    "guardrail_soft_violation:" ++ "ctr" ∉
      (extractSignals baseContract zeroCtrRows basePolicy).soft_violations :=
  ⟨(C6_zero_denominator_null baseContract zeroCtrRows basePolicy "ctr"
      (by decide) (by decide)).2.1,
   (C6_zero_denominator_null baseContract zeroCtrRows basePolicy "ctr"
      (by decide) (by decide)).2.2⟩

/-- Membership in a conditionally emitted singleton. -/
theorem mem_cond_singleton (b : Bool) (x y : String) :
    (x ∈ if b = true then [y] else []) ↔ b = true ∧ x = y := by
  cases b <;> simp

/-- Membership in a negatively conditioned singleton. -/
theorem mem_cond_singleton_neg (b : Bool) (x y : String) :
    (x ∈ if b = true then [] else [y]) ↔ b = false ∧ x = y := by
  cases b <;> simp

/-- Characterization of the strong-uplift factor guard. -/
theorem upliftStrong_iff (s : SignalSet) (p : Policy) :
    upliftStrong s p = true ↔
      ∃ u, s.primary_uplift_pct = some u ∧
        p.practical_threshold_pct.getD (1 / 2) ≤ |u| := by
  unfold upliftStrong
  cases h : s.primary_uplift_pct <;> simp [h]

/-- Characterization of the small-uplift factor guard. -/
theorem upliftSmall_iff (s : SignalSet) (p : Policy) :
    upliftSmall s p = true ↔
      ∃ u, s.primary_uplift_pct = some u ∧
        |u| < p.practical_threshold_pct.getD (1 / 2) := by
  unfold upliftSmall
  cases h : s.primary_uplift_pct <;> simp [h]

/-- Signals with a null primary uplift (no overall test row existed). -/
def nullUpliftSignals : SignalSet :=
  { primary_metric := "revenue", primary_uplift_pct := none,
    effect_relative := none, p_value := none, is_significant := false,
    alpha := 5 / 100, guardrails := [("ctr", none)],
    guardrail_hard_violated := false, guardrail_soft_violated := false,
    hard_violations := [], soft_violations := [], segment_conflict := false,
    long_term_reversal := false, has_segment_data := false,
    has_long_term_data := false }

unseal Rat.mul Rat.add Rat.sub Rat.inv in
/-- C7 counterexample: on a signal set whose primary uplift is null the
confidence scorer adds neither `primary_uplift_strong` nor
`primary_uplift_small`, refuting "on every input exactly one of the two
contributes". -/
theorem C7_counterexample :
    nullUpliftSignals.primary_uplift_pct = none ∧
    "primary_uplift_strong" ∉ firedFactors nullUpliftSignals basePolicy ∧
    "primary_uplift_small" ∉ firedFactors nullUpliftSignals basePolicy := by
  decide

/-- C7 amended: when the uplift is non-null, exactly one of the two
primary-uplift factors fires (`strong` iff its magnitude reaches the policy
practical threshold, default `0.5`); when the uplift is null, neither
fires. -/
theorem C7_uplift_factor_dichotomy (s : SignalSet) (p : Policy) :
    ("primary_uplift_strong" ∈ firedFactors s p ↔
      ∃ u, s.primary_uplift_pct = some u ∧
        p.practical_threshold_pct.getD (1 / 2) ≤ |u|) ∧
    ("primary_uplift_small" ∈ firedFactors s p ↔
      ∃ u, s.primary_uplift_pct = some u ∧
        |u| < p.practical_threshold_pct.getD (1 / 2)) := by
  constructor
  · rw [← upliftStrong_iff]
    simp only [firedFactors, List.mem_append, mem_cond_singleton,
      mem_cond_singleton_neg]
    simp
  · rw [← upliftSmall_iff]
    simp only [firedFactors, List.mem_append, mem_cond_singleton,
      mem_cond_singleton_neg]
    simp

/-- The fixed reason-code vocabulary of the decision evaluator. -/
def reasonVocab (r : String) : Prop :=
  r = "primary_uplift" ∨ r = "long_term_reversal" ∨ r = "not_significant" ∨
  r = "segment_conflict" ∨ r = "practically_small" ∨
  r = "insufficient_evidence" ∨ ∃ m, r = "guardrail_violation:" ++ m

/-- Metric-parameterized codes are in the vocabulary. -/
theorem reasonVocab_guard (m : String) :
    reasonVocab ("guardrail_violation:" ++ m) :=
  Or.inr (Or.inr (Or.inr (Or.inr (Or.inr (Or.inr ⟨m, rfl⟩)))))

/-- Every extracted hard-violation code is `guardrail_violation:<metric>`. -/
theorem hard_violations_form (c : Contract) (rows : List Row) (p : Policy)
    (r : String) (h : r ∈ (extractSignals c rows p).hard_violations) :
    ∃ m, r = "guardrail_violation:" ++ m := by
  rw [extractSignals_hard_violations] at h
  rcases List.mem_append.mp h with h | h
  · obtain ⟨pg, hpg, hf⟩ := List.mem_filterMap.mp h
    refine ⟨pg.metric, ?_⟩
    rcases hval : (guardEff (testAll rows) (controlAll rows) pg.metric).map
        (· * 100) with _ | dv
    · rw [hval] at hf
      simp at hf
    · rw [hval] at hf
      simp only [Option.ite_none_right_eq_some, Option.some.injEq] at hf
      exact hf.2.2.symm
  · obtain ⟨g, hg, hf⟩ := List.mem_filterMap.mp h
    refine ⟨g.name, ?_⟩
    rcases hval : guardEff (testAll rows) (controlAll rows) g.name with _ | e
    · rw [hval] at hf
      simp at hf
    · rw [hval] at hf
      simp only [Option.ite_none_right_eq_some, Option.some.injEq] at hf
      exact hf.2.symm

/-- Every extracted soft-violation code is
`guardrail_soft_violation:<metric>`. -/
theorem soft_violations_form (c : Contract) (rows : List Row) (p : Policy)
    (r : String) (h : r ∈ (extractSignals c rows p).soft_violations) :
    ∃ m, r = "guardrail_soft_violation:" ++ m := by
  rw [extractSignals_soft_violations] at h
  obtain ⟨pg, hpg, hf⟩ := List.mem_filterMap.mp h
  refine ⟨pg.metric, ?_⟩
  rcases hval : (guardEff (testAll rows) (controlAll rows) pg.metric).map
      (· * 100) with _ | dv
  · rw [hval] at hf
    simp at hf
  · rw [hval] at hf
    simp only [Option.ite_none_right_eq_some, Option.ite_none_left_eq_some,
      Option.some.injEq] at hf
    exact hf.2.2.symm

/-- C9: every reason the evaluator emits on extracted signals belongs to the
fixed vocabulary (with guardrail codes parameterized by metric), and every
soft code in the signals is `guardrail_soft_violation:<metric>`. -/
theorem C9_reason_vocabulary (c : Contract) (rows : List Row) (p : Policy) :
    (∀ r ∈ (makeDecision (extractSignals c rows p) c p).2, reasonVocab r) ∧
    (∀ r ∈ (extractSignals c rows p).soft_violations,
      ∃ m, r = "guardrail_soft_violation:" ++ m) := by
  refine ⟨?_, fun r h => soft_violations_form c rows p r h⟩
  intro r hr
  have hguard : ∀ r2, r2 ∈ (extractSignals c rows p).hard_violations →
      reasonVocab r2 := by
    intro r2 h2
    obtain ⟨m, hm⟩ := hard_violations_form c rows p r2 h2
    exact hm ▸ reasonVocab_guard m
  unfold makeDecision at hr
  by_cases h1 : (extractSignals c rows p).guardrail_hard_violated = true
  · rw [if_pos h1] at hr
    by_cases h2 : ((extractSignals c rows p).is_significant &&
        abovePractical (extractSignals c rows p).primary_uplift_pct
          (effectivePractical c p)) = true
    · rw [if_pos h2] at hr
      replace hr : r ∈ "primary_uplift" ::
        (extractSignals c rows p).hard_violations := hr
      rcases List.mem_cons.mp hr with rfl | hr
      · simp [reasonVocab]
      · exact hguard r hr
    · rw [if_neg h2] at hr
      replace hr : r ∈ (extractSignals c rows p).hard_violations := hr
      exact hguard r hr
  · rw [if_neg h1] at hr
    by_cases h2 : (extractSignals c rows p).long_term_reversal = true
    · rw [if_pos h2] at hr
      by_cases h3 : (extractSignals c rows p).is_significant = true
      · rw [if_pos h3] at hr
        replace hr : r ∈ ["long_term_reversal"] := hr
        rcases List.mem_singleton.mp hr with rfl
        simp [reasonVocab]
      · rw [if_neg h3] at hr
        replace hr : r ∈ ["long_term_reversal", "not_significant"] := hr
        rcases List.mem_cons.mp hr with rfl | hr
        · simp [reasonVocab]
        · rcases List.mem_singleton.mp hr with rfl
          simp [reasonVocab]
    · rw [if_neg h2] at hr
      by_cases h3 : (extractSignals c rows p).segment_conflict = true
      · rw [if_pos h3] at hr
        by_cases h4 : (extractSignals c rows p).is_significant = true
        · rw [if_pos h4] at hr
          replace hr : r ∈ ["segment_conflict"] := hr
          rcases List.mem_singleton.mp hr with rfl
          simp [reasonVocab]
        · rw [if_neg h4] at hr
          replace hr : r ∈ ["segment_conflict", "not_significant"] := hr
          rcases List.mem_cons.mp hr with rfl | hr
          · simp [reasonVocab]
          · rcases List.mem_singleton.mp hr with rfl
            simp [reasonVocab]
      · rw [if_neg h3] at hr
        by_cases h4 : ((extractSignals c rows p).is_significant &&
            !abovePractical (extractSignals c rows p).primary_uplift_pct
              (effectivePractical c p)) = true
        · rw [if_pos h4] at hr
          replace hr : r ∈ ["practically_small"] := hr
          rcases List.mem_singleton.mp hr with rfl
          simp [reasonVocab]
        · rw [if_neg h4] at hr
          by_cases h5 : (p.require_significance_for_ship.getD true &&
              !(extractSignals c rows p).is_significant) = true
          · rw [if_pos h5] at hr
            replace hr : r ∈ ["not_significant"] := hr
            rcases List.mem_singleton.mp hr with rfl
            simp [reasonVocab]
          · rw [if_neg h5] at hr
            by_cases h6 : ((extractSignals c rows p).is_significant &&
                abovePractical (extractSignals c rows p).primary_uplift_pct
                  (effectivePractical c p)) = true
            · rw [if_pos h6] at hr
              replace hr : r ∈ ["primary_uplift"] := hr
              rcases List.mem_singleton.mp hr with rfl
              simp [reasonVocab]
            · rw [if_neg h6] at hr
              replace hr : r ∈ ["insufficient_evidence"] := hr
              rcases List.mem_singleton.mp hr with rfl
              simp [reasonVocab]

unseal Rat.mul Rat.add Rat.sub Rat.inv in
/-- Witness for C9 at the clean-ship fixture, whose only reason code is
`primary_uplift`. -/
theorem C9_reason_vocabulary_witness : reasonVocab "primary_uplift" :=
  (C9_reason_vocabulary baseContract revenueRows basePolicy).1 "primary_uplift"
    (by decide)

/-- C10: a contract-declared guardrail not covered by policy whose
directional rule fires is recorded as a hard violation, so the evaluator
terminates at the hard-guardrail step with `do_not_ship`. -/
theorem C10_contract_guardrail_is_hard (c : Contract) (rows : List Row)
    (p : Policy) (g : ContractGuardrail) (hg : g ∈ c.guardrails)
    (hnp : g.name ∉ p.guardrails.map (·.metric))
    (e : ℚ) (he : guardEff (testAll rows) (controlAll rows) g.name = some e)
    (hv : contractGuardViolated g e = true) :
    (makeDecision (extractSignals c rows p) c p).1 = "do_not_ship" := by
  have hmem : "guardrail_violation:" ++ g.name ∈
      contractHardViolations (testAll rows) (controlAll rows) c p := by
    apply List.mem_filterMap.mpr
    refine ⟨g, ?_, ?_⟩
    · refine List.mem_filter.mpr ⟨hg, ?_⟩
      simp only [List.contains, Bool.not_eq_true']
      exact (Bool.not_eq_true _).mp (fun hcon =>
        hnp (List.elem_iff.mp hcon))
    · rw [he]
      simp [hv]
  have hflag : (extractSignals c rows p).guardrail_hard_violated = true := by
    rw [extractSignals_hard_flag]
    have hne : (policyHardViolations (testAll rows) (controlAll rows) p ++
        contractHardViolations (testAll rows) (controlAll rows) c p) ≠ [] :=
      List.ne_nil_of_mem (List.mem_append_right _ hmem)
    simp [List.isEmpty_eq_false.mpr hne]
  unfold makeDecision
  simp [hflag]

/-- A contract declaring its own latency guardrail, unknown to policy. -/
def latencyContract : Contract :=
  { baseContract with guardrails :=
      [{ name := "latency", direction := some "down",
         max_drop_relative := none, max_rise_relative := some (5 / 100) }] }

/-- Rows where latency rises 10% relative, violating the contract rule. -/
def latencyRows : List Row :=
  [ { segment := some "all", variant := some "control",
      cells := [("revenue", some 100), ("ctr", some 10), ("latency", some 200)] },
    { segment := some "all", variant := some "test",
      cells := [("revenue", some 103),
                ("revenue_effect_relative", some (32 / 1000)),
                ("revenue_p_value", some (1 / 100)),
                ("ctr", some 10), ("ctr_effect_relative", some (1 / 100)),
                ("latency", some 220)] } ]

unseal Rat.mul Rat.add Rat.sub Rat.inv in
/-- Witness for C10 at the latency fixture. -/
theorem C10_contract_guardrail_is_hard_witness :
    (makeDecision (extractSignals latencyContract latencyRows basePolicy)
      latencyContract basePolicy).1 = "do_not_ship" :=
  C10_contract_guardrail_is_hard latencyContract latencyRows basePolicy
    { name := "latency", direction := some "down",
      max_drop_relative := none, max_rise_relative := some (5 / 100) }
    (by decide) (by decide) (1 / 10) (by decide) (by decide)

/-- The per-segment `(seg, uplift_pct, p)` triples for the primary metric,
as collected by the segment-conflict pass. -/
def primarySegUplifts (c : Contract) (rows : List Row) (p : Policy) :
    List (String × ℚ × ℚ) :=
  segUplifts c rows (pmName c p ++ "_effect_relative")
    (pmName c p ++ "_p_value")

/-- Unfolding equation: the segment-conflict flag. -/
theorem extractSignals_segment_conflict (c : Contract) (rows : List Row)
    (p : Policy) :
    (extractSignals c rows p).segment_conflict =
      segmentConflictFlag c rows p (alphaOf c p)
        (pmName c p ++ "_effect_relative") (pmName c p ++ "_p_value") := rfl

/-- The seed bounds the running maximum from below. -/
theorem le_maxOf_self (v : ℚ) (l : List ℚ) : v ≤ maxOf v l := by
  induction l generalizing v with
  | nil => exact le_refl v
  | cons w ws ih => exact le_trans (le_max_left v w) (ih (max v w))

/-- Every list element is bounded by the running maximum. -/
theorem le_maxOf_of_mem (v x : ℚ) (l : List ℚ) (h : x ∈ l) :
    x ≤ maxOf v l := by
  induction l generalizing v with
  | nil => cases h
  | cons w ws ih =>
    rcases List.mem_cons.mp h with rfl | h2
    · exact le_trans (le_max_right v x) (le_maxOf_self (max v x) ws)
    · exact ih (max v w) h2

/-- The running maximum is the seed or a list element. -/
theorem maxOf_mem (v : ℚ) (l : List ℚ) : maxOf v l = v ∨ maxOf v l ∈ l := by
  induction l generalizing v with
  | nil => exact Or.inl rfl
  | cons w ws ih =>
    have hd : maxOf v (w :: ws) = maxOf (max v w) ws := rfl
    rw [hd]
    rcases ih (max v w) with h | h
    · rw [h]
      rcases max_choice v w with hm | hm
      · exact Or.inl hm
      · exact Or.inr (List.mem_cons.mpr (Or.inl hm))
    · exact Or.inr (List.mem_cons.mpr (Or.inr h))

/-- The seed bounds the running minimum from above. -/
theorem minOf_le_self (v : ℚ) (l : List ℚ) : minOf v l ≤ v := by
  induction l generalizing v with
  | nil => exact le_refl v
  | cons w ws ih => exact le_trans (ih (min v w)) (min_le_left v w)

/-- The running minimum bounds every list element. -/
theorem minOf_le_of_mem (v x : ℚ) (l : List ℚ) (h : x ∈ l) :
    minOf v l ≤ x := by
  induction l generalizing v with
  | nil => cases h
  | cons w ws ih =>
    rcases List.mem_cons.mp h with rfl | h2
    · exact le_trans (minOf_le_self (min v x) ws) (min_le_right v x)
    · exact ih (min v w) h2

/-- The running minimum is the seed or a list element. -/
theorem minOf_mem (v : ℚ) (l : List ℚ) : minOf v l = v ∨ minOf v l ∈ l := by
  induction l generalizing v with
  | nil => exact Or.inl rfl
  | cons w ws ih =>
    have hd : minOf v (w :: ws) = minOf (min v w) ws := rfl
    rw [hd]
    rcases ih (min v w) with h | h
    · rw [h]
      rcases min_choice v w with hm | hm
      · exact Or.inl hm
      · exact Or.inr (List.mem_cons.mpr (Or.inl hm))
    · exact Or.inr (List.mem_cons.mpr (Or.inr h))

/-- The max-minus-min spread reaches `g` iff some pair of elements differs
by at least `g`. -/
theorem gapOf_reached_iff (g v : ℚ) (vs : List ℚ) :
    g ≤ gapOf (v :: vs) ↔
      ∃ a ∈ v :: vs, ∃ b ∈ v :: vs, g ≤ a - b := by
  have hgap : gapOf (v :: vs) = maxOf v vs - minOf v vs := rfl
  rw [hgap]
  constructor
  · intro h
    refine ⟨maxOf v vs, ?_, minOf v vs, ?_, h⟩
    · rcases maxOf_mem v vs with hm | hm
      · rw [hm]
        exact List.mem_cons_self v vs
      · exact List.mem_cons.mpr (Or.inr hm)
    · rcases minOf_mem v vs with hm | hm
      · rw [hm]
        exact List.mem_cons_self v vs
      · exact List.mem_cons.mpr (Or.inr hm)
  · rintro ⟨a, ha, b, hb, hab⟩
    have hamax : a ≤ maxOf v vs := by
      rcases List.mem_cons.mp ha with rfl | ha2
      · exact le_maxOf_self a vs
      · exact le_maxOf_of_mem v a vs ha2
    have hbmin : minOf v vs ≤ b := by
      rcases List.mem_cons.mp hb with rfl | hb2
      · exact minOf_le_self b vs
      · exact minOf_le_of_mem v b vs hb2
    exact le_trans hab (sub_le_sub hamax hbmin)

/-- `gapOf_reached_iff` for any nonempty list. -/
theorem gapOf_reached_iff2 (g : ℚ) (l : List ℚ) (hl : l ≠ []) :
    g ≤ gapOf l ↔ ∃ a ∈ l, ∃ b ∈ l, g ≤ a - b := by
  cases l with
  | nil => exact absurd rfl hl
  | cons v vs => exact gapOf_reached_iff g v vs

/-- Transport of the spread-pair condition along the uplift projection. -/
theorem exists_pair_map_iff (g : ℚ) (su : List (String × ℚ × ℚ)) :
    (∃ a ∈ su.map (fun t => t.2.1), ∃ b ∈ su.map (fun t => t.2.1),
      g ≤ a - b) ↔
      ∃ t1 ∈ su, ∃ t2 ∈ su, g ≤ t1.2.1 - t2.2.1 := by
  constructor
  · rintro ⟨a, ha, b, hb, h⟩
    obtain ⟨t1, ht1, rfl⟩ := List.mem_map.mp ha
    obtain ⟨t2, ht2, rfl⟩ := List.mem_map.mp hb
    exact ⟨t1, ht1, t2, ht2, h⟩
  · rintro ⟨t1, ht1, t2, ht2, h⟩
    exact ⟨t1.2.1, List.mem_map_of_mem _ ht1,
      t2.2.1, List.mem_map_of_mem _ ht2, h⟩

/-- The spread condition over the collected segment uplifts, as a pair of
witnessing segments. -/
theorem gap_pair_iff (g : ℚ) (su : List (String × ℚ × ℚ)) (hsu : su ≠ []) :
    g ≤ gapOf (su.map fun t => t.2.1) ↔
      ∃ t1 ∈ su, ∃ t2 ∈ su, g ≤ t1.2.1 - t2.2.1 := by
  rw [gapOf_reached_iff2 _ _ (by simpa using hsu)]
  exact exists_pair_map_iff g su

/-- C4 amended: the segment-conflict flag is set iff the contract declares
at least two segments, policy segment checking is enabled, at least two
segments have usable (effect, p-value) pairs, some pair of per-segment
uplifts is spread by at least `min_abs_pct_gap_for_conflict`, and there are
a significant positive and a significant negative segment effect —
significance for segments being strict (`p < alpha`), unlike the primary
check (`p <= alpha`), with the same alpha. -/
theorem C4_segment_conflict_iff (c : Contract) (rows : List Row) (p : Policy) :
    (extractSignals c rows p).segment_conflict = true ↔
      (2 ≤ c.segments.length ∧ p.segments_enabled.getD true = true ∧
       2 ≤ (primarySegUplifts c rows p).length ∧
       (∃ t1 ∈ primarySegUplifts c rows p, ∃ t2 ∈ primarySegUplifts c rows p,
         p.min_abs_pct_gap_for_conflict.getD 2 ≤ t1.2.1 - t2.2.1) ∧
       (∃ t ∈ primarySegUplifts c rows p,
         0 < t.2.1 ∧ t.2.2 < alphaOf c p) ∧
       (∃ t ∈ primarySegUplifts c rows p,
         t.2.1 < 0 ∧ t.2.2 < alphaOf c p)) := by
  rw [extractSignals_segment_conflict]
  simp only [segmentConflictFlag]
  have hrw : segUplifts c rows (pmName c p ++ "_effect_relative")
      (pmName c p ++ "_p_value") = primarySegUplifts c rows p := rfl
  rw [hrw]
  generalize primarySegUplifts c rows p = su
  generalize alphaOf c p = alpha
  generalize p.min_abs_pct_gap_for_conflict.getD 2 = mg
  by_cases hA : 2 ≤ c.segments.length
  · by_cases hB : p.segments_enabled.getD true = true
    · rw [if_pos (by simp [hA, hB])]
      by_cases hC : 2 ≤ su.length
      · rw [if_pos (by simpa using hC)]
        have hne : su ≠ [] := by
          intro h0
          rw [h0] at hC
          simp at hC
        simp only [Bool.and_eq_true, decide_eq_true_eq, List.any_eq_true]
        rw [gap_pair_iff mg su hne]
        constructor
        · rintro ⟨⟨hgap, hpos⟩, hneg⟩
          exact ⟨hA, hB, hC, hgap, hpos, hneg⟩
        · rintro ⟨-, -, -, hgap, hpos, hneg⟩
          exact ⟨⟨hgap, hpos⟩, hneg⟩
      · rw [if_neg (by simpa using hC)]
        constructor
        · intro hcon
          simp at hcon
        · rintro ⟨-, -, hC2, -⟩
          exact absurd hC2 hC
    · rw [if_neg (by simp [hB])]
      constructor
      · intro hcon
        simp at hcon
      · rintro ⟨-, hB2, -⟩
        exact absurd hB2 hB
  · rw [if_neg (by simp [hA])]
    constructor
    · intro hcon
      simp at hcon
    · rintro ⟨hA2, -⟩
      exact absurd hA2 hA

/-- A contract declaring segments A and B. -/
def segContract : Contract :=
  { baseContract with segments := ["A", "B"] }

/-- Segment rows: A significantly positive, B negative with its p-value
exactly at alpha, and a wide spread. -/
def segBoundaryRows : List Row :=
  [ { segment := some "all", variant := some "test",
      cells := [("revenue_effect_relative", some (2 / 1000)),
                ("revenue_p_value", some (40 / 100))] },
    { segment := some "A", variant := some "test",
      cells := [("revenue_effect_relative", some (3 / 100)),
                ("revenue_p_value", some (1 / 100))] },
    { segment := some "B", variant := some "test",
      cells := [("revenue_effect_relative", some (-3 / 100)),
                ("revenue_p_value", some (5 / 100))] } ]

unseal Rat.mul Rat.add Rat.sub Rat.inv in
/-- C4 counterexample: judging significance the way the primary check does
(`p <= alpha`), both a significant positive and a significant negative
segment exist and the spread is wide, yet the flag stays `false`: segment B
sits exactly at `p = alpha` and the code demands a strict `p < alpha`. -/
theorem C4_counterexample :
    (extractSignals segContract segBoundaryRows basePolicy).segment_conflict
      = false ∧
    2 ≤ segContract.segments.length ∧
    basePolicy.segments_enabled.getD true = true ∧
    2 ≤ (primarySegUplifts segContract segBoundaryRows basePolicy).length ∧
    (∃ t1 ∈ primarySegUplifts segContract segBoundaryRows basePolicy,
      ∃ t2 ∈ primarySegUplifts segContract segBoundaryRows basePolicy,
        basePolicy.min_abs_pct_gap_for_conflict.getD 2 ≤ t1.2.1 - t2.2.1) ∧
    (∃ t ∈ primarySegUplifts segContract segBoundaryRows basePolicy,
      0 < t.2.1 ∧ t.2.2 ≤ alphaOf segContract basePolicy) ∧
    (∃ t ∈ primarySegUplifts segContract segBoundaryRows basePolicy,
      t.2.1 < 0 ∧ t.2.2 ≤ alphaOf segContract basePolicy) := by
  decide

/-- The `evidence_sparse` factor fires iff the missing-evidence list is
nonempty. -/
theorem evidence_sparse_iff (s : SignalSet) (p : Policy) :
    "evidence_sparse" ∈ firedFactors s p ↔ missingEvidence s p ≠ [] := by
  simp only [firedFactors, List.mem_append, mem_cond_singleton,
    mem_cond_singleton_neg, List.isEmpty_eq_false]
  simp

/-- Exact characterization of a nonempty missing-evidence list. -/
theorem missingEvidence_ne_nil_iff (s : SignalSet) (p : Policy) :
    missingEvidence s p ≠ [] ↔
      (s.primary_uplift_pct = none ∨ s.p_value = none ∨
       (∃ pg ∈ p.guardrails, (s.guardrails.lookup pg.metric).join = none) ∨
       (p.segments_enabled.getD false = true ∧ s.has_segment_data = false) ∨
       (p.long_term_enabled.getD false = true ∧ s.has_long_term_data = false)) := by
  rw [← not_iff_not]
  push_neg
  unfold missingEvidence
  simp only [List.append_eq_nil, List.filterMap_eq_nil_iff, ite_eq_right_iff,
    List.cons_ne_nil, imp_false, Option.some_ne_none, not_not, not_and,
    Bool.and_eq_true, Bool.not_eq_true', Bool.not_eq_false, ne_eq]
  tauto

/-- C8 amended: `evidence_sparse` fires iff the uplift is null, or the
p-value is null, or some policy guardrail's recorded delta is null, or
segment checking is explicitly enabled (an absent flag counts as disabled at
this read site) while the segment-data flag is down, or long-term checking
is explicitly enabled while the long-term flag is down.  On extracted
signals the segment-data flag means exactly "the contract declared at least
two segments" and the long-term flag equals the reversal flag itself, so
neither flag records whether evidence was actually collected. -/
theorem C8_evidence_sparse_characterization :
    (∀ (s : SignalSet) (p : Policy),
      ("evidence_sparse" ∈ firedFactors s p ↔
        (s.primary_uplift_pct = none ∨ s.p_value = none ∨
         (∃ pg ∈ p.guardrails, (s.guardrails.lookup pg.metric).join = none) ∨
         (p.segments_enabled.getD false = true ∧
           s.has_segment_data = false) ∨
         (p.long_term_enabled.getD false = true ∧
           s.has_long_term_data = false)))) ∧
    (∀ (c : Contract) (rows : List Row) (p : Policy),
      (extractSignals c rows p).has_segment_data
        = decide (2 ≤ c.segments.length) ∧
      (extractSignals c rows p).has_long_term_data
        = (extractSignals c rows p).long_term_reversal) := by
  constructor
  · intro s p
    rw [evidence_sparse_iff]
    exact missingEvidence_ne_nil_iff s p
  · intro c rows p
    exact ⟨rfl, rfl⟩

/-- A contract with two declared segments and innocuous notes. -/
def fullEvidenceContract : Contract :=
  { baseContract with
    segments := ["A", "B"]
    notes := "all metrics look healthy" }

/-- Rows carrying every expected signal: overall effect, p-value, the ctr
guardrail delta, and both segment rows. -/
def fullEvidenceRows : List Row :=
  revenueRows ++
  [ { segment := some "A", variant := some "test",
      cells := [("revenue_effect_relative", some (3 / 100)),
                ("revenue_p_value", some (1 / 100))] },
    { segment := some "B", variant := some "test",
      cells := [("revenue_effect_relative", some (2 / 100)),
                ("revenue_p_value", some (2 / 100))] } ]

/-- The extracted signal set of the full-evidence fixture. -/
def fullEvidenceSignals : SignalSet :=
  extractSignals fullEvidenceContract fullEvidenceRows basePolicy

unseal Rat.mul Rat.add Rat.sub Rat.inv in
/-- C8 counterexample: every expected signal was computed (uplift, p-value,
the only policy guardrail delta, segment data; the long-term check ran on
present notes and found no reversal), yet the code records `long_term` as
missing evidence and fires `evidence_sparse` — because the "long-term data
observed" flag is the reversal flag itself. -/
theorem C8_counterexample :
    fullEvidenceSignals.primary_uplift_pct = some (32 / 10) ∧
    fullEvidenceSignals.p_value = some (1 / 100) ∧
    fullEvidenceSignals.guardrails = [("ctr", some 1)] ∧
    fullEvidenceSignals.has_segment_data = true ∧
    basePolicy.long_term_enabled.getD true = true ∧
    fullEvidenceSignals.long_term_reversal = false ∧
    missingEvidence fullEvidenceSignals basePolicy = ["long_term"] ∧
    "evidence_sparse" ∈ firedFactors fullEvidenceSignals basePolicy := by
  decide

end ABFactory
